import Mathlib

/-!
Verification of the `PolideaInternal/incubator-airflow` excerpt:
the unimplemented Variable / XCom REST endpoint stubs
(`airflow/api_connexion/endpoints/variable_endpoint.py`,
`airflow/api_connexion/endpoints/xcom_endpoint.py`) and the
`PubSubPullSensor` operator
(`airflow/providers/google/cloud/sensors/pubsub.py`).

Python exceptions are modelled with an explicit error type, stateful
code by explicit state passing, and the vendor Pub/Sub hook by a record
of `pull` / `acknowledge` behaviours; every hook call the sensor issues
is recorded in the result so that call-count and argument claims can be
stated.
-/

/-- A raised Python exception, as relevant to this excerpt. -/
inductive PyExc where
  | notImplementedError (msg : String)
  | other (name : String)
deriving DecidableEq, Repr

/-- A Python warning emitted via `warnings.warn`. -/
inductive PyWarning where
  | deprecationWarning (msg : String)
deriving DecidableEq, Repr

/-- The backing store the REST API would operate on (Variable and XCom
rows).  The stubs never touch it; carrying it through state passing lets
us state that. -/
structure ApiState where
  variableRows : List (String × String)
  xcomRows : List (String × String)
deriving DecidableEq, Repr

/-- Outcome of calling an endpoint handler: the raised exception or a
returned value (none is ever returned today), together with the state
after the call. -/
def EndpointResult := Except PyExc Unit × ApiState

namespace VariableEndpoint

/-- `delete_variable` from `variable_endpoint.py`: raises
`NotImplementedError("Not implemented yet.")`. -/
def delete_variable (s : ApiState) : EndpointResult :=
  (Except.error (PyExc.notImplementedError "Not implemented yet."), s)

/-- `get_variable` from `variable_endpoint.py`. -/
def get_variable (s : ApiState) : EndpointResult :=
  (Except.error (PyExc.notImplementedError "Not implemented yet."), s)

/-- `get_variables` from `variable_endpoint.py`. -/
def get_variables (s : ApiState) : EndpointResult :=
  (Except.error (PyExc.notImplementedError "Not implemented yet."), s)

/-- `lookup_variable` from `variable_endpoint.py`. -/
def lookup_variable (s : ApiState) : EndpointResult :=
  (Except.error (PyExc.notImplementedError "Not implemented yet."), s)

/-- `patch_variable` from `variable_endpoint.py`. -/
def patch_variable (s : ApiState) : EndpointResult :=
  (Except.error (PyExc.notImplementedError "Not implemented yet."), s)

/-- `post_variables` from `variable_endpoint.py`. -/
def post_variables (s : ApiState) : EndpointResult :=
  (Except.error (PyExc.notImplementedError "Not implemented yet."), s)

end VariableEndpoint

namespace XComEndpoint

/-- `delete_xcom_entry` from `xcom_endpoint.py`. -/
def delete_xcom_entry (s : ApiState) : EndpointResult :=
  (Except.error (PyExc.notImplementedError "Not implemented yet."), s)

/-- `get_xcom_entry` from `xcom_endpoint.py`. -/
def get_xcom_entry (s : ApiState) : EndpointResult :=
  (Except.error (PyExc.notImplementedError "Not implemented yet."), s)

/-- `get_xcom_entries` from `xcom_endpoint.py`. -/
def get_xcom_entries (s : ApiState) : EndpointResult :=
  (Except.error (PyExc.notImplementedError "Not implemented yet."), s)

/-- `patch_xcom_entry` from `xcom_endpoint.py`. -/
def patch_xcom_entry (s : ApiState) : EndpointResult :=
  (Except.error (PyExc.notImplementedError "Not implemented yet."), s)

/-- `post_xcom_entries` from `xcom_endpoint.py`. -/
def post_xcom_entries (s : ApiState) : EndpointResult :=
  (Except.error (PyExc.notImplementedError "Not implemented yet."), s)

end XComEndpoint

/-- Python truthiness of an `Optional[str]`: `None` and the empty string
are falsy, every other string is truthy. -/
def pyTruthyOptStr : Option String → Bool
  | none => false
  | some s => !(s == "")

/-- Arguments of one `PubSubHook.pull` call, exactly the keyword
arguments `poke` passes. -/
structure PullArgs where
  project_id : String
  subscription : String
  max_messages : Int
  return_immediately : Bool
deriving DecidableEq, Repr

/-- Arguments of one `PubSubHook.acknowledge` call, exactly the keyword
arguments `poke` passes.  `Msg` is the opaque `ReceivedMessage` type of
the vendor SDK. -/
structure AckArgs (Msg : Type) where
  project_id : String
  subscription : String
  messages : List Msg
deriving DecidableEq, Repr

/-- Behaviour of the vendor `PubSubHook` for one poke: what `pull`
returns (or raises) for given arguments, and what `acknowledge` does. -/
structure Hook (Msg : Type) where
  pull : PullArgs → Except PyExc (List Msg)
  acknowledge : AckArgs Msg → Except PyExc Unit

/-- External environment of the sensor: `MessageToDict` from
`google.protobuf.json_format` rendering one message as a JSON-serializable
mapping (itself a Python value of type `Val`), and the Python list
constructor packaging a list of such mappings as a single Python value. -/
structure PokeEnv (Msg Val : Type) where
  messageToDict : Msg → Val
  listValue : List Val → Val

/-- The fields `PubSubPullSensor.__init__` stores on `self`, plus the
`reschedule` flag of the surrounding `BaseSensorOperator` (true in
reschedule mode, false in poke mode) and the `_return_value` slot.
`Msg` is the vendor message type, `Ctx` the Airflow context type, `Val`
the type of Python values saved to XCom. -/
structure PubSubPullSensor (Msg Ctx Val : Type) where
  gcp_conn_id : String
  delegate_to : Option String
  project_id : String
  subscription : String
  max_messages : Int
  return_immediately : Option Bool
  ack_messages : Bool
  messages_callback : Option (List Msg → Ctx → Val)
  reschedule : Bool
  return_value : Option Val

namespace PubSubPullSensor

/-- `PubSubPullSensor.__init__`: stores the arguments on `self`, except
that a truthy deprecated `project` argument overrides `project_id` and
emits a `DeprecationWarning`.  Returns the constructed sensor together
with the warnings emitted. -/
def init (Msg Ctx Val : Type)
    (project_id : String) (subscription : String) (max_messages : Int)
    (return_immediately : Option Bool) (ack_messages : Bool)
    (gcp_conn_id : String) (delegate_to : Option String)
    (project : Option String)
    (messages_callback : Option (List Msg → Ctx → Val))
    (reschedule : Bool) :
    PubSubPullSensor Msg Ctx Val × List PyWarning :=
  let resolved :=
    if pyTruthyOptStr project then
      (project.getD project_id,
       [PyWarning.deprecationWarning
          "The project parameter has been deprecated. You should pass the project_id parameter."])
    else
      (project_id, ([] : List PyWarning))
  ({ gcp_conn_id := gcp_conn_id
     delegate_to := delegate_to
     project_id := resolved.1
     subscription := subscription
     max_messages := max_messages
     return_immediately := return_immediately
     ack_messages := ack_messages
     messages_callback := messages_callback
     reschedule := reschedule
     return_value := none },
   resolved.2)

/-- `PubSubPullSensor._default_message_callback`: converts each pulled
`ReceivedMessage` to a JSON-serializable dict with `MessageToDict` and
returns the list of them (as a Python list value). -/
def default_message_callback (Msg Ctx Val : Type) (env : PokeEnv Msg Val)
    (pulled_messages : List Msg) (context : Ctx) : Val :=
  env.listValue (pulled_messages.map env.messageToDict)

/-- `self.messages_callback or self._default_message_callback` as a
function of the stored `messages_callback` field (a function object is
always truthy in Python, so `or` picks the callback exactly when one was
stored). -/
def applyCallback (Msg Ctx Val : Type) (env : PokeEnv Msg Val)
    (mc : Option (List Msg → Ctx → Val)) : List Msg → Ctx → Val :=
  match mc with
  | some cb => cb
  | none => fun msgs ctx => default_message_callback Msg Ctx Val env msgs ctx

/-- The function `poke` binds to `handle_messages`. -/
def handleMessages (Msg Ctx Val : Type) (env : PokeEnv Msg Val)
    (self : PubSubPullSensor Msg Ctx Val) : List Msg → Ctx → Val :=
  applyCallback Msg Ctx Val env self.messages_callback

/-- The `return_immediately` value `poke` computes: the stored attribute
unless it is `None`, in which case the `reschedule` flag of the base
sensor. -/
def resolvedReturnImmediately (Msg Ctx Val : Type)
    (self : PubSubPullSensor Msg Ctx Val) : Bool :=
  match self.return_immediately with
  | none => self.reschedule
  | some b => b

/-- The keyword arguments `poke` passes to `hook.pull`. -/
def pokePullArgs (Msg Ctx Val : Type)
    (self : PubSubPullSensor Msg Ctx Val) : PullArgs :=
  { project_id := self.project_id
    subscription := self.subscription
    max_messages := self.max_messages
    return_immediately := resolvedReturnImmediately Msg Ctx Val self }

/-- The keyword arguments `poke` passes to `hook.acknowledge`. -/
def pokeAckArgs (Msg Ctx Val : Type)
    (self : PubSubPullSensor Msg Ctx Val) (pulled_messages : List Msg) :
    AckArgs Msg :=
  { project_id := self.project_id
    subscription := self.subscription
    messages := pulled_messages }

end PubSubPullSensor

/-- Everything one call of `PubSubPullSensor.poke` did: the `pull` calls
issued on the hook (in order), the `acknowledge` calls issued, the
returned boolean or the exception that propagated, and `self` after the
call. -/
structure PokeResult (Msg Ctx Val : Type) where
  pulls : List PullArgs
  acks : List (AckArgs Msg)
  outcome : Except PyExc Bool
  self : PubSubPullSensor Msg Ctx Val

namespace PubSubPullSensor

/-- `PubSubPullSensor.poke`, line by line: build the hook from
`gcp_conn_id` / `delegate_to`, resolve `return_immediately` (defaulting
to the `reschedule` flag when `None`), issue one `pull`, store the
transformation of the pulled messages in `_return_value`, acknowledge
the raw messages when the list is truthy and `ack_messages` is set, and
return `bool(pulled_messages)`.  An exception from `pull` or
`acknowledge` propagates. -/
def poke (Msg Ctx Val : Type)
    (mkHook : String → Option String → Hook Msg) (env : PokeEnv Msg Val)
    (self : PubSubPullSensor Msg Ctx Val) (context : Ctx) :
    PokeResult Msg Ctx Val :=
  let hook := mkHook self.gcp_conn_id self.delegate_to
  let pullArgs := pokePullArgs Msg Ctx Val self
  match hook.pull pullArgs with
  | Except.error e =>
      { pulls := [pullArgs], acks := [], outcome := Except.error e, self := self }
  | Except.ok pulled_messages =>
      let handle_messages := handleMessages Msg Ctx Val env self
      let self1 :=
        { self with return_value := some (handle_messages pulled_messages context) }
      if !pulled_messages.isEmpty && self.ack_messages then
        let ackArgs := pokeAckArgs Msg Ctx Val self pulled_messages
        match hook.acknowledge ackArgs with
        | Except.error e =>
            { pulls := [pullArgs], acks := [ackArgs],
              outcome := Except.error e, self := self1 }
        | Except.ok _ =>
            { pulls := [pullArgs], acks := [ackArgs],
              outcome := Except.ok (!pulled_messages.isEmpty), self := self1 }
      else
        { pulls := [pullArgs], acks := [],
          outcome := Except.ok (!pulled_messages.isEmpty), self := self1 }

/-- Modelled from the spec: `BaseSensorOperator.execute` (the base class
is not part of this excerpt) — a sensor "repeatedly checks an external
condition until satisfied": on each scheduling tick it invokes `poke`
once, stops successfully when `poke` returns true, propagates any
exception, and fails with a sensor timeout when the ticks run out.
`ticks` supplies the hook behaviour of each successive tick. -/
def superExecute (Msg Ctx Val : Type) (env : PokeEnv Msg Val) (context : Ctx) :
    List (String → Option String → Hook Msg) → PubSubPullSensor Msg Ctx Val →
    Except PyExc (PubSubPullSensor Msg Ctx Val)
  | [], _ => Except.error (PyExc.other "AirflowSensorTimeout")
  | mkHook :: rest, self =>
      let r := poke Msg Ctx Val mkHook env self context
      match r.outcome with
      | Except.error e => Except.error e
      | Except.ok true => Except.ok r.self
      | Except.ok false => superExecute Msg Ctx Val env context rest r.self

/-- `PubSubPullSensor.execute`: runs `super().execute(context)` (the
sensing loop) and then returns `self._return_value`. -/
def execute (Msg Ctx Val : Type) (env : PokeEnv Msg Val)
    (ticks : List (String → Option String → Hook Msg))
    (self : PubSubPullSensor Msg Ctx Val) (context : Ctx) :
    Except PyExc (Option Val) :=
  match superExecute Msg Ctx Val env context ticks self with
  | Except.error e => Except.error e
  | Except.ok selfAfter => Except.ok selfAfter.return_value

end PubSubPullSensor

/-! ### Concrete instances used by the witness theorems -/

/-- A concrete environment with `Msg := Nat` and Python values rendered
as `List Nat`: `MessageToDict` boxes a message as a one-element list and
the Python list constructor concatenates. -/
def envW : PokeEnv Nat (List Nat) :=
  { messageToDict := fun n => [n], listValue := List.flatten }

/-- A concrete sensor with the constructor's default settings. -/
def sensorW : PubSubPullSensor Nat Unit (List Nat) :=
  { gcp_conn_id := "google_cloud_default"
    delegate_to := none
    project_id := "test-project"
    subscription := "test-subscription"
    max_messages := 5
    return_immediately := none
    ack_messages := false
    messages_callback := none
    reschedule := false
    return_value := none }

/-- A hook whose `pull` returns no messages. -/
def hookEmpty : Hook Nat :=
  { pull := fun _ => Except.ok [], acknowledge := fun _ => Except.ok () }

/-- A hook whose `pull` returns two messages. -/
def hookMsgs : Hook Nat :=
  { pull := fun _ => Except.ok [3, 7], acknowledge := fun _ => Except.ok () }

/-- A hook whose `pull` raises. -/
def hookPullFail : Hook Nat :=
  { pull := fun _ => Except.error (PyExc.other "GoogleAPICallError")
    acknowledge := fun _ => Except.ok () }

/-- A hook whose `pull` succeeds and whose `acknowledge` raises. -/
def hookAckFail : Hook Nat :=
  { pull := fun _ => Except.ok [3, 7]
    acknowledge := fun _ => Except.error (PyExc.other "GoogleAPICallError") }

/-- Ignore the connection id / delegation and return a fixed hook. -/
def mkHookW (h : Hook Nat) : String → Option String → Hook Nat :=
  fun _ _ => h

/-- `sensorW` with `ack_messages` set. -/
def sensorAck : PubSubPullSensor Nat Unit (List Nat) :=
  { sensorW with ack_messages := true }

/-- `sensorW` in reschedule mode but with an explicit
`return_immediately := False`. -/
def sensorRIfalse : PubSubPullSensor Nat Unit (List Nat) :=
  { sensorW with return_immediately := some false, reschedule := true }

/-- The result of one poke of `sensorW` against `hookMsgs`. -/
def pokeResultW : PokeResult Nat Unit (List Nat) :=
  PubSubPullSensor.poke Nat Unit (List Nat) (mkHookW hookMsgs) envW sensorW ()

/-! ### Helper lemmas about `poke` -/

namespace PubSubPullSensor

/-- `poke` records exactly one `pull` call, with the arguments
`pokePullArgs`, in every branch. -/
theorem poke_pulls (Msg Ctx Val : Type)
    (mkHook : String → Option String → Hook Msg) (env : PokeEnv Msg Val)
    (self : PubSubPullSensor Msg Ctx Val) (context : Ctx) :
    (poke Msg Ctx Val mkHook env self context).pulls =
      [pokePullArgs Msg Ctx Val self] := by
  cases hp : (mkHook self.gcp_conn_id self.delegate_to).pull
      (pokePullArgs Msg Ctx Val self) with
  | error e => simp [poke, hp]
  | ok msgs =>
      by_cases hc : (!msgs.isEmpty && self.ack_messages) = true
      · cases ha : (mkHook self.gcp_conn_id self.delegate_to).acknowledge
            (pokeAckArgs Msg Ctx Val self msgs) with
        | error e => simp [poke, hp, hc, ha]
        | ok u => simp [poke, hp, hc, ha]
      · simp [poke, hp, hc]

/-- `poke` never changes the stored `messages_callback`. -/
theorem poke_messages_callback (Msg Ctx Val : Type)
    (mkHook : String → Option String → Hook Msg) (env : PokeEnv Msg Val)
    (self : PubSubPullSensor Msg Ctx Val) (context : Ctx) :
    (poke Msg Ctx Val mkHook env self context).self.messages_callback =
      self.messages_callback := by
  cases hp : (mkHook self.gcp_conn_id self.delegate_to).pull
      (pokePullArgs Msg Ctx Val self) with
  | error e => simp [poke, hp]
  | ok msgs =>
      by_cases hc : (!msgs.isEmpty && self.ack_messages) = true
      · cases ha : (mkHook self.gcp_conn_id self.delegate_to).acknowledge
            (pokeAckArgs Msg Ctx Val self msgs) with
        | error e => simp [poke, hp, hc, ha]
        | ok u => simp [poke, hp, hc, ha]
      · simp [poke, hp, hc]

/-- When `poke` reports success, some non-empty list of messages was
pulled and its transformation was stored in `_return_value`. -/
theorem poke_outcome_true (Msg Ctx Val : Type)
    (mkHook : String → Option String → Hook Msg) (env : PokeEnv Msg Val)
    (self : PubSubPullSensor Msg Ctx Val) (context : Ctx)
    (h : (poke Msg Ctx Val mkHook env self context).outcome = Except.ok true) :
    ∃ msgs, msgs ≠ [] ∧
      (poke Msg Ctx Val mkHook env self context).self.return_value =
        some (handleMessages Msg Ctx Val env self msgs context) := by
  cases hp : (mkHook self.gcp_conn_id self.delegate_to).pull
      (pokePullArgs Msg Ctx Val self) with
  | error e => simp [poke, hp] at h
  | ok msgs =>
      refine ⟨msgs, ?_, ?_⟩
      · by_cases hc : (!msgs.isEmpty && self.ack_messages) = true
        · cases ha : (mkHook self.gcp_conn_id self.delegate_to).acknowledge
              (pokeAckArgs Msg Ctx Val self msgs) with
          | error e => simp [poke, hp, hc, ha] at h
          | ok u =>
              simp [poke, hp, hc, ha] at h
              simpa [List.isEmpty_iff] using h
        · simp [poke, hp, hc] at h
          simpa [List.isEmpty_iff] using h
      · by_cases hc : (!msgs.isEmpty && self.ack_messages) = true
        · cases ha : (mkHook self.gcp_conn_id self.delegate_to).acknowledge
              (pokeAckArgs Msg Ctx Val self msgs) with
          | error e => simp [poke, hp, hc, ha]
          | ok u => simp [poke, hp, hc, ha]
        · simp [poke, hp, hc]

end PubSubPullSensor

/-! ### Claims -/

/-- C1: every endpoint function of the Variable and XCom endpoint
modules, called in any state, raises
`NotImplementedError("Not implemented yet.")` and performs no side
effects: the state after the call is the state before it, and the
outcome is a constant independent of the state. -/
theorem claim_C1_endpoint_stubs_not_implemented :
    ∀ s : ApiState,
      VariableEndpoint.delete_variable s =
        (Except.error (PyExc.notImplementedError "Not implemented yet."), s) ∧
      VariableEndpoint.get_variable s =
        (Except.error (PyExc.notImplementedError "Not implemented yet."), s) ∧
      VariableEndpoint.get_variables s =
        (Except.error (PyExc.notImplementedError "Not implemented yet."), s) ∧
      VariableEndpoint.lookup_variable s =
        (Except.error (PyExc.notImplementedError "Not implemented yet."), s) ∧
      VariableEndpoint.patch_variable s =
        (Except.error (PyExc.notImplementedError "Not implemented yet."), s) ∧
      VariableEndpoint.post_variables s =
        (Except.error (PyExc.notImplementedError "Not implemented yet."), s) ∧
      XComEndpoint.delete_xcom_entry s =
        (Except.error (PyExc.notImplementedError "Not implemented yet."), s) ∧
      XComEndpoint.get_xcom_entry s =
        (Except.error (PyExc.notImplementedError "Not implemented yet."), s) ∧
      XComEndpoint.get_xcom_entries s =
        (Except.error (PyExc.notImplementedError "Not implemented yet."), s) ∧
      XComEndpoint.patch_xcom_entry s =
        (Except.error (PyExc.notImplementedError "Not implemented yet."), s) ∧
      XComEndpoint.post_xcom_entries s =
        (Except.error (PyExc.notImplementedError "Not implemented yet."), s) :=
  fun _ => ⟨rfl, rfl, rfl, rfl, rfl, rfl, rfl, rfl, rfl, rfl, rfl⟩

/-- C2: when the hook's `pull` returns an empty message list, `poke`
returns `False` and never calls `acknowledge`, whatever the value of
`ack_messages`. -/
theorem claim_C2_zero_messages_false_no_ack (Msg Ctx Val : Type)
    (mkHook : String → Option String → Hook Msg) (env : PokeEnv Msg Val)
    (self : PubSubPullSensor Msg Ctx Val) (context : Ctx)
    (hpull : (mkHook self.gcp_conn_id self.delegate_to).pull
        (PubSubPullSensor.pokePullArgs Msg Ctx Val self) = Except.ok []) :
    (PubSubPullSensor.poke Msg Ctx Val mkHook env self context).outcome =
        Except.ok false ∧
    (PubSubPullSensor.poke Msg Ctx Val mkHook env self context).acks = [] := by
  constructor <;> simp [PubSubPullSensor.poke, hpull]

/-- Witness for C2: a sensor polled against a hook that pulls zero
messages. -/
theorem claim_C2_zero_messages_false_no_ack_witness :
    (mkHookW hookEmpty sensorW.gcp_conn_id sensorW.delegate_to).pull
        (PubSubPullSensor.pokePullArgs Nat Unit (List Nat) sensorW) =
      Except.ok [] ∧
    ((PubSubPullSensor.poke Nat Unit (List Nat) (mkHookW hookEmpty) envW
        sensorW ()).outcome = Except.ok false ∧
     (PubSubPullSensor.poke Nat Unit (List Nat) (mkHookW hookEmpty) envW
        sensorW ()).acks = []) :=
  ⟨rfl, claim_C2_zero_messages_false_no_ack Nat Unit (List Nat)
    (mkHookW hookEmpty) envW sensorW () rfl⟩

/-- C3: for a non-empty list of pulled messages, the default
transformation returns the list of `MessageToDict` renderings — same
length, order preserved — and within `poke` the `acknowledge` call is
issued if and only if `ack_messages` is `True`. -/
theorem claim_C3_default_callback_and_ack_iff (Msg Ctx Val : Type)
    (mkHook : String → Option String → Hook Msg) (env : PokeEnv Msg Val)
    (self : PubSubPullSensor Msg Ctx Val) (context : Ctx)
    (msgs : List Msg) (hne : msgs ≠ [])
    (hpull : (mkHook self.gcp_conn_id self.delegate_to).pull
        (PubSubPullSensor.pokePullArgs Msg Ctx Val self) = Except.ok msgs) :
    (∃ dicts : List Val,
        PubSubPullSensor.default_message_callback Msg Ctx Val env msgs context =
          env.listValue dicts ∧
        dicts.length = msgs.length ∧
        ∀ i (hi : i < dicts.length) (hj : i < msgs.length),
          dicts.get ⟨i, hi⟩ = env.messageToDict (msgs.get ⟨i, hj⟩)) ∧
    ((PubSubPullSensor.poke Msg Ctx Val mkHook env self context).acks ≠ [] ↔
      self.ack_messages = true) := by
  have hb : msgs.isEmpty = false := by
    simpa [List.isEmpty_iff] using hne
  constructor
  · refine ⟨msgs.map env.messageToDict, rfl, by simp, ?_⟩
    intro i hi hj
    simp
  · by_cases hack : self.ack_messages = true
    · cases ha : (mkHook self.gcp_conn_id self.delegate_to).acknowledge
          (PubSubPullSensor.pokeAckArgs Msg Ctx Val self msgs) with
      | error e => simp [PubSubPullSensor.poke, hpull, hb, hack, ha]
      | ok u => simp [PubSubPullSensor.poke, hpull, hb, hack, ha]
    · have hf : self.ack_messages = false := by simpa using hack
      simp [PubSubPullSensor.poke, hpull, hb, hf]

/-- Witness for C3: two messages pulled by a sensor with
`ack_messages = True`. -/
theorem claim_C3_default_callback_and_ack_iff_witness :
    (([3, 7] : List Nat) ≠ [] ∧
     (mkHookW hookMsgs sensorAck.gcp_conn_id sensorAck.delegate_to).pull
        (PubSubPullSensor.pokePullArgs Nat Unit (List Nat) sensorAck) =
       Except.ok [3, 7]) ∧
    ((∃ dicts : List (List Nat),
        PubSubPullSensor.default_message_callback Nat Unit (List Nat) envW
            [3, 7] () = envW.listValue dicts ∧
        dicts.length = ([3, 7] : List Nat).length ∧
        ∀ i (hi : i < dicts.length) (hj : i < ([3, 7] : List Nat).length),
          dicts.get ⟨i, hi⟩ = envW.messageToDict (([3, 7] : List Nat).get ⟨i, hj⟩)) ∧
     ((PubSubPullSensor.poke Nat Unit (List Nat) (mkHookW hookMsgs) envW
          sensorAck ()).acks ≠ [] ↔ sensorAck.ack_messages = true)) :=
  ⟨⟨by decide, rfl⟩,
   claim_C3_default_callback_and_ack_iff Nat Unit (List Nat)
     (mkHookW hookMsgs) envW sensorAck () [3, 7] (by decide) rfl⟩

/-- C4: when the stored `return_immediately` is `None`, the pull request
carries the sensor's `reschedule` flag; an explicit `True`/`False` is
passed through unchanged. -/
theorem claim_C4_return_immediately_resolution (Msg Ctx Val : Type)
    (mkHook : String → Option String → Hook Msg) (env : PokeEnv Msg Val)
    (self : PubSubPullSensor Msg Ctx Val) (context : Ctx) :
    (self.return_immediately = none →
      (PubSubPullSensor.poke Msg Ctx Val mkHook env self context).pulls =
        [{ project_id := self.project_id, subscription := self.subscription,
           max_messages := self.max_messages,
           return_immediately := self.reschedule }]) ∧
    (∀ b : Bool, self.return_immediately = some b →
      (PubSubPullSensor.poke Msg Ctx Val mkHook env self context).pulls =
        [{ project_id := self.project_id, subscription := self.subscription,
           max_messages := self.max_messages, return_immediately := b }]) := by
  constructor
  · intro h
    rw [PubSubPullSensor.poke_pulls]
    simp [PubSubPullSensor.pokePullArgs, PubSubPullSensor.resolvedReturnImmediately, h]
  · intro b h
    rw [PubSubPullSensor.poke_pulls]
    simp [PubSubPullSensor.pokePullArgs, PubSubPullSensor.resolvedReturnImmediately, h]

/-- Witness for C4: `sensorW` (unset flag, poke mode) pulls with
`return_immediately = false`; `sensorRIfalse` (reschedule mode, explicit
`False`) still pulls with `false`. -/
theorem claim_C4_return_immediately_resolution_witness :
    (sensorW.return_immediately = none ∧
     (PubSubPullSensor.poke Nat Unit (List Nat) (mkHookW hookEmpty) envW
        sensorW ()).pulls =
       [{ project_id := sensorW.project_id, subscription := sensorW.subscription,
          max_messages := sensorW.max_messages,
          return_immediately := sensorW.reschedule }]) ∧
    (sensorRIfalse.return_immediately = some false ∧
     (PubSubPullSensor.poke Nat Unit (List Nat) (mkHookW hookEmpty) envW
        sensorRIfalse ()).pulls =
       [{ project_id := sensorRIfalse.project_id,
          subscription := sensorRIfalse.subscription,
          max_messages := sensorRIfalse.max_messages,
          return_immediately := false }]) :=
  ⟨⟨rfl, (claim_C4_return_immediately_resolution Nat Unit (List Nat)
      (mkHookW hookEmpty) envW sensorW ()).1 rfl⟩,
   ⟨rfl, (claim_C4_return_immediately_resolution Nat Unit (List Nat)
      (mkHookW hookEmpty) envW sensorRIfalse ()).2 false rfl⟩⟩

/-- C5: every `poke` issues exactly one pull request, with exactly the
configured `project_id`, `subscription`, `max_messages` and the resolved
`return_immediately` flag. -/
theorem claim_C5_exactly_one_pull (Msg Ctx Val : Type)
    (mkHook : String → Option String → Hook Msg) (env : PokeEnv Msg Val)
    (self : PubSubPullSensor Msg Ctx Val) (context : Ctx) :
    (PubSubPullSensor.poke Msg Ctx Val mkHook env self context).pulls =
      [PubSubPullSensor.pokePullArgs Msg Ctx Val self] ∧
    (PubSubPullSensor.pokePullArgs Msg Ctx Val self).project_id = self.project_id ∧
    (PubSubPullSensor.pokePullArgs Msg Ctx Val self).subscription = self.subscription ∧
    (PubSubPullSensor.pokePullArgs Msg Ctx Val self).max_messages = self.max_messages ∧
    (PubSubPullSensor.pokePullArgs Msg Ctx Val self).return_immediately =
      PubSubPullSensor.resolvedReturnImmediately Msg Ctx Val self :=
  ⟨PubSubPullSensor.poke_pulls Msg Ctx Val mkHook env self context,
   rfl, rfl, rfl, rfl⟩

/-- When the sensing loop finishes successfully, the stored
`messages_callback` is unchanged and `_return_value` holds the
transformation of some non-empty pulled message list. -/
theorem superExecute_ok (Msg Ctx Val : Type) (env : PokeEnv Msg Val)
    (context : Ctx) (ticks : List (String → Option String → Hook Msg)) :
    ∀ self self' : PubSubPullSensor Msg Ctx Val,
      PubSubPullSensor.superExecute Msg Ctx Val env context ticks self =
        Except.ok self' →
      self'.messages_callback = self.messages_callback ∧
      ∃ msgs, msgs ≠ [] ∧
        self'.return_value =
          some (PubSubPullSensor.applyCallback Msg Ctx Val env
            self.messages_callback msgs context) := by
  induction ticks with
  | nil =>
      intro self self' h
      simp [PubSubPullSensor.superExecute] at h
  | cons mkHook rest ih =>
      intro self self' h
      simp only [PubSubPullSensor.superExecute] at h
      rcases ho : (PubSubPullSensor.poke Msg Ctx Val mkHook env self context).outcome with e | b
      · rw [ho] at h
        simp at h
      · cases b with
        | false =>
            rw [ho] at h
            obtain ⟨hmc, msgs, hne, hrv⟩ := ih _ _ h
            refine ⟨?_, msgs, hne, ?_⟩
            · rw [hmc, PubSubPullSensor.poke_messages_callback]
            · rw [hrv, PubSubPullSensor.poke_messages_callback]
        | true =>
            rw [ho] at h
            have hself : (PubSubPullSensor.poke Msg Ctx Val mkHook env self context).self = self' := by
              simpa using h
            obtain ⟨msgs, hne, hrv⟩ :=
              PubSubPullSensor.poke_outcome_true Msg Ctx Val mkHook env self context ho
            refine ⟨?_, msgs, hne, ?_⟩
            · rw [← hself, PubSubPullSensor.poke_messages_callback]
            · rw [← hself]
              simpa [PubSubPullSensor.handleMessages] using hrv

/-- C6: `execute` returns exactly the stored `_return_value` after the
sensing loop completes, and that value is the caller-supplied
`messages_callback` applied to the pulled messages and context when one
was provided, otherwise the default transformation. -/
theorem claim_C6_execute_returns_stored_value (Msg Ctx Val : Type)
    (env : PokeEnv Msg Val) (ticks : List (String → Option String → Hook Msg))
    (self self' : PubSubPullSensor Msg Ctx Val) (context : Ctx)
    (hloop : PubSubPullSensor.superExecute Msg Ctx Val env context ticks self =
      Except.ok self') :
    PubSubPullSensor.execute Msg Ctx Val env ticks self context =
      Except.ok self'.return_value ∧
    (∃ msgs, msgs ≠ [] ∧ self'.return_value =
        some (PubSubPullSensor.handleMessages Msg Ctx Val env self msgs context)) ∧
    (∀ cb, self.messages_callback = some cb →
        PubSubPullSensor.handleMessages Msg Ctx Val env self = cb) ∧
    (self.messages_callback = none →
        PubSubPullSensor.handleMessages Msg Ctx Val env self =
          fun m c => PubSubPullSensor.default_message_callback Msg Ctx Val env m c) := by
  refine ⟨?_, ?_, ?_, ?_⟩
  · simp [PubSubPullSensor.execute, hloop]
  · obtain ⟨hmc, msgs, hne, hrv⟩ :=
      superExecute_ok Msg Ctx Val env context ticks self self' hloop
    exact ⟨msgs, hne, by simpa [PubSubPullSensor.handleMessages] using hrv⟩
  · intro cb hcb
    simp [PubSubPullSensor.handleMessages, PubSubPullSensor.applyCallback, hcb]
  · intro hcb
    simp [PubSubPullSensor.handleMessages, PubSubPullSensor.applyCallback, hcb]

/-- Witness for C6: a one-tick loop that pulls two messages with the
default callback. -/
theorem claim_C6_execute_returns_stored_value_witness :
    PubSubPullSensor.superExecute Nat Unit (List Nat) envW () [mkHookW hookMsgs]
        sensorW = Except.ok pokeResultW.self ∧
    (PubSubPullSensor.execute Nat Unit (List Nat) envW [mkHookW hookMsgs]
        sensorW () = Except.ok pokeResultW.self.return_value ∧
     (∃ msgs, msgs ≠ [] ∧ pokeResultW.self.return_value =
        some (PubSubPullSensor.handleMessages Nat Unit (List Nat) envW sensorW
          msgs ())) ∧
     (∀ cb, sensorW.messages_callback = some cb →
        PubSubPullSensor.handleMessages Nat Unit (List Nat) envW sensorW = cb) ∧
     (sensorW.messages_callback = none →
        PubSubPullSensor.handleMessages Nat Unit (List Nat) envW sensorW =
          fun m c =>
            PubSubPullSensor.default_message_callback Nat Unit (List Nat) envW m c)) :=
  ⟨rfl, claim_C6_execute_returns_stored_value Nat Unit (List Nat) envW
    [mkHookW hookMsgs] sensorW pokeResultW.self () rfl⟩

/-- C7: an exception raised by the hook's `pull`, or by `acknowledge`
when it is reached, becomes the outcome of `poke` unchanged — `poke` has
no handler of its own. -/
theorem claim_C7_exceptions_propagate (Msg Ctx Val : Type)
    (mkHook : String → Option String → Hook Msg) (env : PokeEnv Msg Val)
    (self : PubSubPullSensor Msg Ctx Val) (context : Ctx) :
    (∀ e, (mkHook self.gcp_conn_id self.delegate_to).pull
        (PubSubPullSensor.pokePullArgs Msg Ctx Val self) = Except.error e →
      (PubSubPullSensor.poke Msg Ctx Val mkHook env self context).outcome =
        Except.error e) ∧
    (∀ msgs e,
      (mkHook self.gcp_conn_id self.delegate_to).pull
          (PubSubPullSensor.pokePullArgs Msg Ctx Val self) = Except.ok msgs →
      (!msgs.isEmpty && self.ack_messages) = true →
      (mkHook self.gcp_conn_id self.delegate_to).acknowledge
          (PubSubPullSensor.pokeAckArgs Msg Ctx Val self msgs) = Except.error e →
      (PubSubPullSensor.poke Msg Ctx Val mkHook env self context).outcome =
        Except.error e) := by
  constructor
  · intro e hp
    simp [PubSubPullSensor.poke, hp]
  · intro msgs e hp hc ha
    simp [PubSubPullSensor.poke, hp, hc, ha]

/-- Witness for C7: a failing `pull` against `sensorW` and a failing
`acknowledge` against `sensorAck`. -/
theorem claim_C7_exceptions_propagate_witness :
    ((mkHookW hookPullFail sensorW.gcp_conn_id sensorW.delegate_to).pull
        (PubSubPullSensor.pokePullArgs Nat Unit (List Nat) sensorW) =
      Except.error (PyExc.other "GoogleAPICallError") ∧
     (PubSubPullSensor.poke Nat Unit (List Nat) (mkHookW hookPullFail) envW
        sensorW ()).outcome = Except.error (PyExc.other "GoogleAPICallError")) ∧
    ((mkHookW hookAckFail sensorAck.gcp_conn_id sensorAck.delegate_to).pull
        (PubSubPullSensor.pokePullArgs Nat Unit (List Nat) sensorAck) =
      Except.ok [3, 7] ∧
     (!([3, 7] : List Nat).isEmpty && sensorAck.ack_messages) = true ∧
     (mkHookW hookAckFail sensorAck.gcp_conn_id sensorAck.delegate_to).acknowledge
        (PubSubPullSensor.pokeAckArgs Nat Unit (List Nat) sensorAck [3, 7]) =
      Except.error (PyExc.other "GoogleAPICallError") ∧
     (PubSubPullSensor.poke Nat Unit (List Nat) (mkHookW hookAckFail) envW
        sensorAck ()).outcome = Except.error (PyExc.other "GoogleAPICallError")) :=
  ⟨⟨rfl, (claim_C7_exceptions_propagate Nat Unit (List Nat) (mkHookW hookPullFail)
      envW sensorW ()).1 (PyExc.other "GoogleAPICallError") rfl⟩,
   ⟨rfl, rfl, rfl, (claim_C7_exceptions_propagate Nat Unit (List Nat)
      (mkHookW hookAckFail) envW sensorAck ()).2 [3, 7]
      (PyExc.other "GoogleAPICallError") rfl rfl rfl⟩⟩

/-- C8: a truthy deprecated `project` argument silently overrides
`project_id` (with a `DeprecationWarning`); a `None` or falsy (empty
string) `project` leaves `project_id` as passed and warns nothing. -/
theorem claim_C8_project_overrides_project_id (Msg Ctx Val : Type)
    (project_id subscription : String) (max_messages : Int)
    (return_immediately : Option Bool) (ack_messages : Bool)
    (gcp_conn_id : String) (delegate_to : Option String)
    (project : Option String)
    (messages_callback : Option (List Msg → Ctx → Val)) (reschedule : Bool) :
    (∀ p, project = some p → p ≠ "" →
      (PubSubPullSensor.init Msg Ctx Val project_id subscription max_messages
          return_immediately ack_messages gcp_conn_id delegate_to project
          messages_callback reschedule).1.project_id = p ∧
      (PubSubPullSensor.init Msg Ctx Val project_id subscription max_messages
          return_immediately ack_messages gcp_conn_id delegate_to project
          messages_callback reschedule).2 =
        [PyWarning.deprecationWarning
          "The project parameter has been deprecated. You should pass the project_id parameter."]) ∧
    ((project = none ∨ project = some "") →
      (PubSubPullSensor.init Msg Ctx Val project_id subscription max_messages
          return_immediately ack_messages gcp_conn_id delegate_to project
          messages_callback reschedule).1.project_id = project_id ∧
      (PubSubPullSensor.init Msg Ctx Val project_id subscription max_messages
          return_immediately ack_messages gcp_conn_id delegate_to project
          messages_callback reschedule).2 = []) := by
  constructor
  · intro p hp hne
    subst hp
    have ht : pyTruthyOptStr (some p) = true := by
      simp [pyTruthyOptStr, hne]
    constructor <;> simp [PubSubPullSensor.init, ht]
  · rintro (hp | hp) <;> subst hp <;>
      constructor <;> simp [PubSubPullSensor.init, pyTruthyOptStr]

/-- Witness for C8: `project = some "legacy-project"` overrides and
warns; `project = some ""` is falsy and keeps `project_id`. -/
theorem claim_C8_project_overrides_project_id_witness :
    ((PubSubPullSensor.init Nat Unit (List Nat) "test-project" "test-subscription"
        5 none false "google_cloud_default" none (some "legacy-project") none
        false).1.project_id = "legacy-project" ∧
     (PubSubPullSensor.init Nat Unit (List Nat) "test-project" "test-subscription"
        5 none false "google_cloud_default" none (some "legacy-project") none
        false).2 =
       [PyWarning.deprecationWarning
         "The project parameter has been deprecated. You should pass the project_id parameter."]) ∧
    ((PubSubPullSensor.init Nat Unit (List Nat) "test-project" "test-subscription"
        5 none false "google_cloud_default" none (some "") none
        false).1.project_id = "test-project" ∧
     (PubSubPullSensor.init Nat Unit (List Nat) "test-project" "test-subscription"
        5 none false "google_cloud_default" none (some "") none
        false).2 = []) :=
  ⟨(claim_C8_project_overrides_project_id Nat Unit (List Nat) "test-project"
      "test-subscription" 5 none false "google_cloud_default" none
      (some "legacy-project") none false).1 "legacy-project" rfl (by decide),
   (claim_C8_project_overrides_project_id Nat Unit (List Nat) "test-project"
      "test-subscription" 5 none false "google_cloud_default" none
      (some "") none false).2 (Or.inr rfl)⟩

/-- The `acknowledge` calls `poke` records: exactly one, with the raw
pulled messages, when the pulled list is non-empty and `ack_messages` is
set; none otherwise. -/
theorem poke_acks (Msg Ctx Val : Type)
    (mkHook : String → Option String → Hook Msg) (env : PokeEnv Msg Val)
    (self : PubSubPullSensor Msg Ctx Val) (context : Ctx) (msgs : List Msg)
    (hpull : (mkHook self.gcp_conn_id self.delegate_to).pull
        (PubSubPullSensor.pokePullArgs Msg Ctx Val self) = Except.ok msgs) :
    (PubSubPullSensor.poke Msg Ctx Val mkHook env self context).acks =
      if (!msgs.isEmpty && self.ack_messages) = true then
        [PubSubPullSensor.pokeAckArgs Msg Ctx Val self msgs]
      else [] := by
  by_cases hc : (!msgs.isEmpty && self.ack_messages) = true
  · cases ha : (mkHook self.gcp_conn_id self.delegate_to).acknowledge
        (PubSubPullSensor.pokeAckArgs Msg Ctx Val self msgs) with
    | error e => simp [PubSubPullSensor.poke, hpull, hc, ha]
    | ok u => simp [PubSubPullSensor.poke, hpull, hc, ha]
  · simp [PubSubPullSensor.poke, hpull, hc]

/-- `_return_value` after a successful pull: the transformation of the
pulled messages, in every branch of `poke`. -/
theorem poke_return_value (Msg Ctx Val : Type)
    (mkHook : String → Option String → Hook Msg) (env : PokeEnv Msg Val)
    (self : PubSubPullSensor Msg Ctx Val) (context : Ctx) (msgs : List Msg)
    (hpull : (mkHook self.gcp_conn_id self.delegate_to).pull
        (PubSubPullSensor.pokePullArgs Msg Ctx Val self) = Except.ok msgs) :
    (PubSubPullSensor.poke Msg Ctx Val mkHook env self context).self.return_value =
      some (PubSubPullSensor.handleMessages Msg Ctx Val env self msgs context) := by
  by_cases hc : (!msgs.isEmpty && self.ack_messages) = true
  · cases ha : (mkHook self.gcp_conn_id self.delegate_to).acknowledge
        (PubSubPullSensor.pokeAckArgs Msg Ctx Val self msgs) with
    | error e => simp [PubSubPullSensor.poke, hpull, hc, ha]
    | ok u => simp [PubSubPullSensor.poke, hpull, hc, ha]
  · simp [PubSubPullSensor.poke, hpull, hc]

/-- C9: `acknowledge` receives exactly the raw pulled message list, only
after the transformation result has been stored in `_return_value`, and
the choice of `messages_callback` does not change which messages are
acknowledged. -/
theorem claim_C9_ack_receives_raw_messages (Msg Ctx Val : Type)
    (mkHook : String → Option String → Hook Msg) (env : PokeEnv Msg Val)
    (self : PubSubPullSensor Msg Ctx Val) (context : Ctx) (msgs : List Msg)
    (hpull : (mkHook self.gcp_conn_id self.delegate_to).pull
        (PubSubPullSensor.pokePullArgs Msg Ctx Val self) = Except.ok msgs) :
    (∀ a ∈ (PubSubPullSensor.poke Msg Ctx Val mkHook env self context).acks,
        a.messages = msgs) ∧
    (PubSubPullSensor.poke Msg Ctx Val mkHook env self context).self.return_value =
      some (PubSubPullSensor.handleMessages Msg Ctx Val env self msgs context) ∧
    (∀ mc : Option (List Msg → Ctx → Val),
      (PubSubPullSensor.poke Msg Ctx Val mkHook env
          { self with messages_callback := mc } context).acks =
        (PubSubPullSensor.poke Msg Ctx Val mkHook env self context).acks) := by
  refine ⟨?_, ?_, ?_⟩
  · intro a ha
    rw [poke_acks Msg Ctx Val mkHook env self context msgs hpull] at ha
    by_cases hc : (!msgs.isEmpty && self.ack_messages) = true
    · rw [if_pos hc] at ha
      simp at ha
      subst ha
      rfl
    · rw [if_neg hc] at ha
      simp at ha
  · exact poke_return_value Msg Ctx Val mkHook env self context msgs hpull
  · intro mc
    have hpull2 : (mkHook ({ self with messages_callback := mc } :
          PubSubPullSensor Msg Ctx Val).gcp_conn_id
          ({ self with messages_callback := mc } :
            PubSubPullSensor Msg Ctx Val).delegate_to).pull
        (PubSubPullSensor.pokePullArgs Msg Ctx Val
          { self with messages_callback := mc }) = Except.ok msgs := hpull
    rw [poke_acks Msg Ctx Val mkHook env { self with messages_callback := mc }
        context msgs hpull2,
      poke_acks Msg Ctx Val mkHook env self context msgs hpull]
    simp [PubSubPullSensor.pokeAckArgs]

/-- Witness for C9: two pulled messages, acknowledging sensor, and a
constant replacement callback. -/
theorem claim_C9_ack_receives_raw_messages_witness :
    ((mkHookW hookMsgs sensorAck.gcp_conn_id sensorAck.delegate_to).pull
        (PubSubPullSensor.pokePullArgs Nat Unit (List Nat) sensorAck) =
      Except.ok [3, 7]) ∧
    (PubSubPullSensor.pokeAckArgs Nat Unit (List Nat) sensorAck [3, 7]).messages =
      [3, 7] ∧
    (PubSubPullSensor.poke Nat Unit (List Nat) (mkHookW hookMsgs) envW
        sensorAck ()).self.return_value =
      some (PubSubPullSensor.handleMessages Nat Unit (List Nat) envW sensorAck
        [3, 7] ()) ∧
    (PubSubPullSensor.poke Nat Unit (List Nat) (mkHookW hookMsgs) envW
        { sensorAck with messages_callback := some (fun _ _ => []) } ()).acks =
      (PubSubPullSensor.poke Nat Unit (List Nat) (mkHookW hookMsgs) envW
        sensorAck ()).acks :=
  ⟨rfl,
   (claim_C9_ack_receives_raw_messages Nat Unit (List Nat) (mkHookW hookMsgs)
      envW sensorAck () [3, 7] rfl).1
     (PubSubPullSensor.pokeAckArgs Nat Unit (List Nat) sensorAck [3, 7])
     (by decide),
   (claim_C9_ack_receives_raw_messages Nat Unit (List Nat) (mkHookW hookMsgs)
      envW sensorAck () [3, 7] rfl).2.1,
   (claim_C9_ack_receives_raw_messages Nat Unit (List Nat) (mkHookW hookMsgs)
      envW sensorAck () [3, 7] rfl).2.2 (some (fun _ _ => []))⟩

/-- A boolean equal to the negation of a list's `isEmpty` is `true`
exactly when the list is non-empty. -/
theorem eq_not_isEmpty_iff (α : Type) (l : List α) (b : Bool)
    (h : l.isEmpty = !b) : b = true ↔ l ≠ [] := by
  cases b <;> cases l <;> simp_all

/-- C10: every successful pull overwrites `_return_value` with the
transformation of the pulled messages — for zero messages and the
default callback it becomes the empty list value — and a boolean result
of `poke` is `True` exactly when the pulled list is non-empty. -/
theorem claim_C10_return_value_overwritten (Msg Ctx Val : Type)
    (mkHook : String → Option String → Hook Msg) (env : PokeEnv Msg Val)
    (self : PubSubPullSensor Msg Ctx Val) (context : Ctx) (msgs : List Msg)
    (hpull : (mkHook self.gcp_conn_id self.delegate_to).pull
        (PubSubPullSensor.pokePullArgs Msg Ctx Val self) = Except.ok msgs) :
    (PubSubPullSensor.poke Msg Ctx Val mkHook env self context).self.return_value =
      some (PubSubPullSensor.handleMessages Msg Ctx Val env self msgs context) ∧
    (msgs = [] → self.messages_callback = none →
      (PubSubPullSensor.poke Msg Ctx Val mkHook env self context).self.return_value =
        some (env.listValue [])) ∧
    (∀ b, (PubSubPullSensor.poke Msg Ctx Val mkHook env self context).outcome =
        Except.ok b → (b = true ↔ msgs ≠ [])) := by
  refine ⟨poke_return_value Msg Ctx Val mkHook env self context msgs hpull, ?_, ?_⟩
  · intro hnil hmc
    subst hnil
    rw [poke_return_value Msg Ctx Val mkHook env self context [] hpull]
    simp [PubSubPullSensor.handleMessages, PubSubPullSensor.applyCallback,
      PubSubPullSensor.default_message_callback, hmc]
  · intro b hb
    by_cases hc : (!msgs.isEmpty && self.ack_messages) = true
    · cases ha : (mkHook self.gcp_conn_id self.delegate_to).acknowledge
          (PubSubPullSensor.pokeAckArgs Msg Ctx Val self msgs) with
      | error e =>
          simp [PubSubPullSensor.poke, hpull, hc, ha] at hb
      | ok u =>
          simp [PubSubPullSensor.poke, hpull, hc, ha] at hb
          exact eq_not_isEmpty_iff Msg msgs b hb
    · simp [PubSubPullSensor.poke, hpull, hc] at hb
      exact eq_not_isEmpty_iff Msg msgs b hb

/-- Witness for C10: zero messages pulled with the default callback. -/
theorem claim_C10_return_value_overwritten_witness :
    ((mkHookW hookEmpty sensorW.gcp_conn_id sensorW.delegate_to).pull
        (PubSubPullSensor.pokePullArgs Nat Unit (List Nat) sensorW) =
      Except.ok []) ∧
    sensorW.messages_callback = none ∧
    (PubSubPullSensor.poke Nat Unit (List Nat) (mkHookW hookEmpty) envW
        sensorW ()).self.return_value = some (envW.listValue []) ∧
    (false = true ↔ ([] : List Nat) ≠ []) :=
  ⟨rfl, rfl,
   (claim_C10_return_value_overwritten Nat Unit (List Nat) (mkHookW hookEmpty)
      envW sensorW () [] rfl).2.1 rfl rfl,
   (claim_C10_return_value_overwritten Nat Unit (List Nat) (mkHookW hookEmpty)
      envW sensorW () [] rfl).2.2 false rfl⟩
